import Mathlib

/-!
# Verification of the Posture Analysis Engine

Shallow embedding of `src/lib/posture-analysis-engine.ts` (the
`PostureAnalysisEngine` class) over the rationals.  JavaScript numbers are
modelled as `ℚ`; the only fallible numeric operation in the source is the
division by `values.length` inside `calculateVariance` (which yields `NaN`
in JavaScript when the list is empty), modelled here by returning
`Option ℚ` and propagating `none`.

The engine's metrics-derivation routines (`calculateSquatMetrics`,
`calculateSittingMetrics`) take no arguments in the source: they read
`Date.now()` and `Math.random()` and ignore the landmark input entirely.
We make this ambient nondeterminism explicit as a `SimEnv` record carrying
the value of `Math.sin(Date.now() / 4000)` (resp. `/ 6000`), the value of
`Math.random()`, and the `Date.now()` timestamp stamped onto issues.

The mutable field `frameHistory` becomes explicit state passing: each
analysis call takes the current history (a `List PostureMetrics`) and
returns the updated one.
-/

set_option autoImplicit false

namespace PostureEngine

/-- `PostureIssue.type ∈ {"critical","warning","minor","good"}` from the
source's union type. -/
inductive IssueType where
  | critical
  | warning
  | minor
  | good
deriving DecidableEq, Repr

/-- `interface PostureMetrics` — derived scalar feature vector. -/
structure PostureMetrics where
  neckAngle : ℚ
  backCurvature : ℚ
  shoulderAlignment : ℚ
  hipAlignment : ℚ
  kneeTracking : ℚ
  squatDepth : ℚ
  overallStability : ℚ
deriving DecidableEq, Repr

/-- `interface PostureIssue`. -/
structure PostureIssue where
  type : IssueType
  message : String
  severity : ℚ
  recommendation : String
  timestamp : ℚ
deriving DecidableEq, Repr

/-- `interface PostureAnalysis` — the engine's output record. -/
structure PostureAnalysis where
  isGoodPosture : Bool
  overallScore : ℚ
  issues : List PostureIssue
  metrics : PostureMetrics
  confidence : ℚ
  recommendations : List String
deriving DecidableEq, Repr

/-- A landmark is a normalized 2-D point; the source types the argument as
`unknown[]` and never reads it, so the payload type is immaterial. -/
structure Landmark where
  x : ℚ
  y : ℚ
deriving DecidableEq, Repr

/-- The ambient nondeterminism of one analysis call, made explicit:
`sinValue` is the value of `Math.sin(Date.now() / 4000)` (squat) or
`Math.sin(Date.now() / 6000)` (sitting) at call time, `random` the value
of `Math.random()`, and `now` the value of `Date.now()` used for issue
timestamps. -/
structure SimEnv where
  sinValue : ℚ
  random : ℚ
  now : ℚ
deriving DecidableEq, Repr

/-- `private stabilityWindow = 5` — frames to consider for stability. -/
def stabilityWindow : ℕ := 5

/-- `Math.max` on (non-NaN) numbers. -/
def jsMax (a b : ℚ) : ℚ := if a ≤ b then b else a

/-- `Math.min` on (non-NaN) numbers. -/
def jsMin (a b : ℚ) : ℚ := if a ≤ b then a else b

/-- `Math.abs` on (non-NaN) numbers. -/
def jsAbs (a : ℚ) : ℚ := if a < 0 then -a else a

/-- `private calculateSquatMetrics(): PostureMetrics` — fabricates squat
metrics from the sinusoidal cycle and noise (the landmark input is never
consulted). -/
def calculateSquatMetrics (env : SimEnv) : PostureMetrics :=
  let squatCycle := env.sinValue
  let noise := (env.random - 1/2) * (1/10)
  let kneeTracking := jsMax 0 (jsAbs (squatCycle * (3/10)) + noise * (1/2))
  let squatDepth := jsMax 0 (jsMin 1 (jsAbs squatCycle * (8/10) + 2/10))
  let backCurvature := jsMax 0 (squatDepth * (4/10) + noise * (3/10))
  let shoulderAlignment := jsAbs (noise * (2/10))
  let hipAlignment := jsAbs (noise * (15/100))
  let overallStability := jsMax (3/10) (1 - jsAbs (noise * 2))
  { neckAngle := 0
    backCurvature := backCurvature
    shoulderAlignment := shoulderAlignment
    hipAlignment := hipAlignment
    kneeTracking := kneeTracking
    squatDepth := squatDepth
    overallStability := overallStability }

/-- `private calculateSittingMetrics(): PostureMetrics`. -/
def calculateSittingMetrics (env : SimEnv) : PostureMetrics :=
  let postureVariation := env.sinValue
  let noise := (env.random - 1/2) * (1/10)
  let neckAngle := jsMax 0 (jsMin 60 (15 + postureVariation * 20 + noise * 15))
  let backCurvature :=
    jsMax 0 (jsMin 1 (2/10 + jsAbs postureVariation * (4/10) + noise * (3/10)))
  let shoulderAlignment := jsAbs (noise * (15/100))
  let hipAlignment := jsAbs (noise * (1/10))
  let overallStability := jsMax (1/2) (1 - jsAbs (noise * (3/2)))
  { neckAngle := neckAngle
    backCurvature := backCurvature
    shoulderAlignment := shoulderAlignment
    hipAlignment := hipAlignment
    kneeTracking := 0
    squatDepth := 0
    overallStability := overallStability }

/-- `private calculateVariance(values: number[]): number` — population
variance `Σ (v - mean)² / n`.  On an empty list JavaScript divides `0/0`
and produces `NaN`, modelled as `none`. -/
def calculateVariance (values : List ℚ) : Option ℚ :=
  if values.length = 0 then none
  else
    let mean := values.sum / (values.length : ℚ)
    some (((values.map fun v => (v - mean) ^ 2).sum) / (values.length : ℚ))

/-- `private calculateStability(): number` — neutral `0.5` with fewer than
two history entries, otherwise `clamp(1 - avgVariance * 10, 0, 1)` over the
variances of three metric fields across the history. -/
def calculateStability (frameHistory : List PostureMetrics) : Option ℚ :=
  if frameHistory.length < 2 then some (1/2)
  else
    match calculateVariance (frameHistory.map fun f => f.backCurvature),
        calculateVariance (frameHistory.map fun f => f.shoulderAlignment),
        calculateVariance (frameHistory.map fun f => f.overallStability) with
    | some vBack, some vShoulder, some vStab =>
        let avgVariance := (vBack + vShoulder + vStab) / 3
        some (jsMax 0 (jsMin 1 (1 - avgVariance * 10)))
    | _, _, _ => none

/-- `this.frameHistory.push(metrics); if (length > stabilityWindow) shift()`
— append the new metrics, then evict the oldest entry when the window is
exceeded. -/
def pushMetrics (frameHistory : List PostureMetrics) (m : PostureMetrics) :
    List PostureMetrics :=
  let pushed := frameHistory ++ [m]
  if pushed.length > stabilityWindow then pushed.tail else pushed

/-- `private calculateSquatScore(metrics, issues): number` — start at 100,
subtract `severity * 2` per issue, add metric bonuses, clamp to `[0,100]`. -/
def calculateSquatScore (metrics : PostureMetrics) (issues : List PostureIssue) : ℚ :=
  let score : ℚ := 100 - (issues.map fun issue => issue.severity * 2).sum
  let score := if metrics.squatDepth > 7/10 then score + 10 else score
  let score := if metrics.kneeTracking < 5/100 then score + 15 else score
  let score := if metrics.backCurvature < 2/10 then score + 10 else score
  let score := if metrics.overallStability > 8/10 then score + 5 else score
  jsMax 0 (jsMin 100 score)

/-- `private calculateSittingScore(metrics, issues): number`. -/
def calculateSittingScore (metrics : PostureMetrics) (issues : List PostureIssue) : ℚ :=
  let score : ℚ := 100 - (issues.map fun issue => issue.severity * 2).sum
  let score := if metrics.neckAngle < 15 then score + 15 else score
  let score := if metrics.backCurvature < 2/10 then score + 15 else score
  let score := if metrics.shoulderAlignment < 5/100 then score + 10 else score
  let score := if metrics.overallStability > 8/10 then score + 5 else score
  jsMax 0 (jsMin 100 score)

/-- `private calculateConfidence(stability, frameNumber): number`. -/
def calculateConfidence (stability frameNumber : ℚ) : ℚ :=
  let frameConfidence := jsMin 1 (frameNumber / 10)
  let stabilityConfidence := stability
  (frameConfidence * (4/10) + stabilityConfidence * (6/10)) * (9/10) + 1/10

/-- `[...new Set(recommendations)]` — JavaScript `Set` iteration preserves
first-insertion order, so deduplication keeps the first occurrence. -/
def dedupKeepFirst (l : List String) : List String :=
  l.foldl (fun acc s => if s ∈ acc then acc else acc ++ [s]) []

/-- The squat rule block of `analyzeSquatPosture` (lines 45–110): the
ordered issue list and the recommendation accumulator it builds from the
current metrics and stability. -/
def squatIssuesRecs (metrics : PostureMetrics) (stability : ℚ) (now : ℚ) :
    List PostureIssue × List String :=
  let knee := metrics.kneeTracking > 15/100
  let back := metrics.backCurvature > 4/10
  let depth := metrics.squatDepth < 3/10
  let shoulder := metrics.shoulderAlignment > 1/10
  let unstable := stability < 6/10
  let goodForm := metrics.squatDepth > 7/10 ∧ metrics.kneeTracking < 5/100 ∧
    metrics.backCurvature < 2/10
  let issues :=
    (if knee then
      [{ type := IssueType.critical
         message := "DANGER: Knee valgus detected - high injury risk!"
         severity := 9
         recommendation := "Keep knees aligned over toes. Strengthen glutes and hip abductors."
         timestamp := now : PostureIssue }] else []) ++
    (if back then
      [{ type := IssueType.critical
         message := "Excessive forward lean - spine at risk"
         severity := 8
         recommendation := "Keep chest up and core engaged. Work on ankle mobility."
         timestamp := now : PostureIssue }] else []) ++
    (if depth then
      [{ type := IssueType.warning
         message := "Insufficient squat depth for optimal benefits"
         severity := 6
         recommendation := "Aim to get hips below knee level. Work on hip and ankle mobility."
         timestamp := now : PostureIssue }] else []) ++
    (if shoulder then
      [{ type := IssueType.warning
         message := "Uneven shoulder position"
         severity := 5
         recommendation := "Check for muscle imbalances. Ensure even weight distribution."
         timestamp := now : PostureIssue }] else []) ++
    (if unstable then
      [{ type := IssueType.minor
         message := "Movement instability detected"
         severity := 3
         recommendation := "Focus on controlled movement. Strengthen core and stabilizer muscles."
         timestamp := now : PostureIssue }] else []) ++
    (if goodForm then
      [{ type := IssueType.good
         message := "Excellent squat form! Great depth and alignment."
         severity := 0
         recommendation := "Maintain this form. Consider adding weight progression."
         timestamp := now : PostureIssue }] else [])
  let recommendations :=
    (if knee then
      ["Focus on knee alignment - imagine pushing the floor apart with your feet"] else []) ++
    (if back then ["Improve ankle flexibility with calf stretches"] else []) ++
    (if depth then ["Practice bodyweight squats to improve depth"] else [])
  (issues, recommendations)

/-- The sitting rule block of `analyzeSittingPosture` (lines 138–213). -/
def sittingIssuesRecs (metrics : PostureMetrics) (stability : ℚ) (now : ℚ) :
    List PostureIssue × List String :=
  let neckCrit := metrics.neckAngle > 35
  let backCrit := metrics.backCurvature > 5/10
  let neckWarn := metrics.neckAngle > 20 ∧ metrics.neckAngle ≤ 35
  let shoulderWarn := metrics.shoulderAlignment > 8/100
  let backWarn := metrics.backCurvature > 25/100 ∧ metrics.backCurvature ≤ 5/10
  let unstable := stability < 7/10
  let goodForm := metrics.neckAngle < 15 ∧ metrics.backCurvature < 2/10 ∧
    metrics.shoulderAlignment < 5/100
  let issues :=
    (if neckCrit then
      [{ type := IssueType.critical
         message := "Severe forward head posture - tech neck risk!"
         severity := 9
         recommendation := "Adjust monitor height. Strengthen deep neck flexors."
         timestamp := now : PostureIssue }] else []) ++
    (if backCrit then
      [{ type := IssueType.critical
         message := "Excessive slouching - spinal health at risk"
         severity := 8
         recommendation := "Sit back in chair with lumbar support. Strengthen core muscles."
         timestamp := now : PostureIssue }] else []) ++
    (if neckWarn then
      [{ type := IssueType.warning
         message := "Moderate forward head posture detected"
         severity := 6
         recommendation := "Adjust screen position and take regular breaks."
         timestamp := now : PostureIssue }] else []) ++
    (if shoulderWarn then
      [{ type := IssueType.warning
         message := "Shoulder imbalance - check your workspace setup"
         severity := 5
         recommendation := "Ensure keyboard and mouse are at equal height."
         timestamp := now : PostureIssue }] else []) ++
    (if backWarn then
      [{ type := IssueType.warning
         message := "Mild slouching detected"
         severity := 4
         recommendation := "Engage core muscles and sit tall."
         timestamp := now : PostureIssue }] else []) ++
    (if unstable then
      [{ type := IssueType.minor
         message := "Frequent position changes - consider ergonomic adjustments"
         severity := 2
         recommendation := "Take regular movement breaks every 30 minutes."
         timestamp := now : PostureIssue }] else []) ++
    (if goodForm then
      [{ type := IssueType.good
         message := "Excellent sitting posture! Well aligned spine and neck."
         severity := 0
         recommendation := "Maintain this posture. Take breaks to prevent stiffness."
         timestamp := now : PostureIssue }] else [])
  let recommendations :=
    (if neckCrit then ["Position screen at eye level to reduce neck strain"] else []) ++
    (if backCrit then ["Use a lumbar support cushion"] else []) ++
    (if shoulderWarn then ["Adjust chair height and armrest position"] else [])
  (issues, recommendations)

/-- `issues.filter((i) => i.type === "critical").length === 0 && overallScore > 70`. -/
def isGoodPostureOf (issues : List PostureIssue) (overallScore : ℚ) : Bool :=
  ((issues.filter fun i => decide (i.type = IssueType.critical)).length == 0) &&
    decide (overallScore > 70)

/-- `analyzeSquatPosture(landmarks, frameNumber)` — the landmark argument
is ignored by the source; the mutable `frameHistory` is passed and returned
explicitly. -/
def analyzeSquatPosture (landmarks : List Landmark) (frameNumber : ℚ)
    (env : SimEnv) (frameHistory : List PostureMetrics) :
    Option (PostureAnalysis × List PostureMetrics) :=
  let _ := landmarks
  let metrics := calculateSquatMetrics env
  let newHistory := pushMetrics frameHistory metrics
  match calculateStability newHistory with
  | none => none
  | some stability =>
    let issuesRecs := squatIssuesRecs metrics stability env.now
    let issues := issuesRecs.1
    let recommendations := issuesRecs.2
    let overallScore := calculateSquatScore metrics issues
    some
      ({ isGoodPosture := isGoodPostureOf issues overallScore
         overallScore := overallScore
         issues := issues
         metrics := metrics
         confidence := calculateConfidence stability frameNumber
         recommendations := dedupKeepFirst recommendations }, newHistory)

/-- `analyzeSittingPosture(landmarks, frameNumber)`. -/
def analyzeSittingPosture (landmarks : List Landmark) (frameNumber : ℚ)
    (env : SimEnv) (frameHistory : List PostureMetrics) :
    Option (PostureAnalysis × List PostureMetrics) :=
  let _ := landmarks
  let metrics := calculateSittingMetrics env
  let newHistory := pushMetrics frameHistory metrics
  match calculateStability newHistory with
  | none => none
  | some stability =>
    let issuesRecs := sittingIssuesRecs metrics stability env.now
    let issues := issuesRecs.1
    let recommendations := issuesRecs.2
    let overallScore := calculateSittingScore metrics issues
    some
      ({ isGoodPosture := isGoodPostureOf issues overallScore
         overallScore := overallScore
         issues := issues
         metrics := metrics
         confidence := calculateConfidence stability frameNumber
         recommendations := dedupKeepFirst recommendations }, newHistory)

/-! ## Spec-side definitions (for refinement statements)

`specVariance` and `specStability` restate the stability algorithm the way
the specification words it (total functions, the `< 2` default made
explicit); the theorems below relate them to the source-translated
`calculateVariance`/`calculateStability`. -/

/-- Spec wording: the variance of the samples, `Σ (v - mean)² / n`. -/
def specVariance (values : List ℚ) : ℚ :=
  let mean := values.sum / (values.length : ℚ)
  ((values.map fun v => (v - mean) ^ 2).sum) / (values.length : ℚ)

/-- Spec wording: neutral `0.5` below two samples, otherwise
`clamp(1 - avgVariance * 10, 0, 1)` with `avgVariance` the mean of the
three per-field variances across the window. -/
def specStability (frameHistory : List PostureMetrics) : ℚ :=
  if frameHistory.length < 2 then 1/2
  else
    let avgVariance :=
      (specVariance (frameHistory.map fun f => f.backCurvature) +
        specVariance (frameHistory.map fun f => f.shoulderAlignment) +
        specVariance (frameHistory.map fun f => f.overallStability)) / 3
    max 0 (min 1 (1 - avgVariance * 10))

/-- The analysis record `analyzeSquatPosture` produces (its `some` payload),
written as a total function; `analyzeSquatPosture_eq` below proves the
agreement. -/
def squatAnalysis (frameNumber : ℚ) (env : SimEnv) (frameHistory : List PostureMetrics) :
    PostureAnalysis :=
  let metrics := calculateSquatMetrics env
  let stability := specStability (pushMetrics frameHistory metrics)
  let issuesRecs := squatIssuesRecs metrics stability env.now
  let issues := issuesRecs.1
  let overallScore := calculateSquatScore metrics issues
  { isGoodPosture := isGoodPostureOf issues overallScore
    overallScore := overallScore
    issues := issues
    metrics := metrics
    confidence := calculateConfidence stability frameNumber
    recommendations := dedupKeepFirst issuesRecs.2 }

/-- The analysis record `analyzeSittingPosture` produces. -/
def sittingAnalysis (frameNumber : ℚ) (env : SimEnv) (frameHistory : List PostureMetrics) :
    PostureAnalysis :=
  let metrics := calculateSittingMetrics env
  let stability := specStability (pushMetrics frameHistory metrics)
  let issuesRecs := sittingIssuesRecs metrics stability env.now
  let issues := issuesRecs.1
  let overallScore := calculateSittingScore metrics issues
  { isGoodPosture := isGoodPostureOf issues overallScore
    overallScore := overallScore
    issues := issues
    metrics := metrics
    confidence := calculateConfidence stability frameNumber
    recommendations := dedupKeepFirst issuesRecs.2 }

/-! ## Call sequences over one engine instance -/

/-- Which public operation a call invokes. -/
inductive Mode where
  | squat
  | sitting
deriving DecidableEq, Repr

/-- One public call to the engine together with its ambient environment. -/
structure EngineCall where
  mode : Mode
  landmarks : List Landmark
  frameNumber : ℚ
  env : SimEnv
deriving DecidableEq, Repr

/-- The frame-history state after one public call (the `none` branch is
unreachable; it leaves the history unchanged). -/
def engineStep (frameHistory : List PostureMetrics) (c : EngineCall) :
    List PostureMetrics :=
  match c.mode with
  | Mode.squat =>
    match analyzeSquatPosture c.landmarks c.frameNumber c.env frameHistory with
    | some p => p.2
    | none => frameHistory
  | Mode.sitting =>
    match analyzeSittingPosture c.landmarks c.frameNumber c.env frameHistory with
    | some p => p.2
    | none => frameHistory

/-- The frame history of a fresh engine instance after a sequence of calls. -/
def runEngine (calls : List EngineCall) : List PostureMetrics :=
  calls.foldl engineStep []

/-! ## Concrete evaluation points -/

/-- Environment with `sin = 0`, `random = 0.5` (zero noise), `now = 0`. -/
def envZero : SimEnv := { sinValue := 0, random := 1/2, now := 0 }

/-- Environment with `sin = 1`, `random = 0.5`, `now = 0` — a later
wall-clock instant than `envZero`. -/
def envOne : SimEnv := { sinValue := 1, random := 1/2, now := 0 }

/-- `calculateSquatMetrics envZero`, written out. -/
def squatMetrics0 : PostureMetrics :=
  { neckAngle := 0, backCurvature := 2/25, shoulderAlignment := 0,
    hipAlignment := 0, kneeTracking := 0, squatDepth := 1/5, overallStability := 1 }

/-- `calculateSittingMetrics envZero`, written out. -/
def sittingMetrics0 : PostureMetrics :=
  { neckAngle := 15, backCurvature := 1/5, shoulderAlignment := 0,
    hipAlignment := 0, kneeTracking := 0, squatDepth := 0, overallStability := 1 }

/-- The analysis `analyzeSquatPosture [] 0 envZero []` returns, written out. -/
def squatAnalysis0 : PostureAnalysis :=
  { isGoodPosture := true
    overallScore := 100
    issues :=
      [{ type := IssueType.warning
         message := "Insufficient squat depth for optimal benefits"
         severity := 6
         recommendation := "Aim to get hips below knee level. Work on hip and ankle mobility."
         timestamp := 0 },
       { type := IssueType.minor
         message := "Movement instability detected"
         severity := 3
         recommendation := "Focus on controlled movement. Strengthen core and stabilizer muscles."
         timestamp := 0 }]
    metrics := squatMetrics0
    confidence := 37/100
    recommendations := ["Practice bodyweight squats to improve depth"] }

/-- The analysis `analyzeSittingPosture [] 0 envZero []` returns, written out. -/
def sittingAnalysis0 : PostureAnalysis :=
  { isGoodPosture := true
    overallScore := 100
    issues :=
      [{ type := IssueType.minor
         message := "Frequent position changes - consider ergonomic adjustments"
         severity := 2
         recommendation := "Take regular movement breaks every 30 minutes."
         timestamp := 0 }]
    metrics := sittingMetrics0
    confidence := 37/100
    recommendations := [] }

/-- A metrics vector with `kneeTracking` exactly at the `0.15` boundary. -/
def kneeBoundaryMetrics : PostureMetrics :=
  { neckAngle := 0, backCurvature := 0, shoulderAlignment := 0,
    hipAlignment := 0, kneeTracking := 15/100, squatDepth := 1/2, overallStability := 1 }

/-- Same vector with `kneeTracking = 0.1500001`, just above the boundary. -/
def kneeAboveBoundaryMetrics : PostureMetrics :=
  { neckAngle := 0, backCurvature := 0, shoulderAlignment := 0,
    hipAlignment := 0, kneeTracking := 1500001/10000000, squatDepth := 1/2,
    overallStability := 1 }

/-- Five identical history entries — a full stability window. -/
def fullHistory : List PostureMetrics := List.replicate 5 squatMetrics0

/-! ## Helper lemmas -/

theorem jsMax_eq (a b : ℚ) : jsMax a b = max a b := by
  simp only [jsMax]
  split
  · rename_i h
    exact (max_eq_right h).symm
  · rename_i h
    exact (max_eq_left (le_of_not_le h)).symm

theorem jsMin_eq (a b : ℚ) : jsMin a b = min a b := by
  simp only [jsMin]
  split
  · rename_i h
    exact (min_eq_left h).symm
  · rename_i h
    exact (min_eq_right (le_of_not_le h)).symm

theorem jsAbs_eq (a : ℚ) : jsAbs a = |a| := by
  simp only [jsAbs]
  split
  · rename_i h
    exact (abs_of_neg h).symm
  · rename_i h
    exact (abs_of_nonneg (le_of_not_lt h)).symm

theorem calculateVariance_of_ne_nil (values : List ℚ) (hv : values ≠ []) :
    calculateVariance values = some (specVariance values) := by
  have hlen : values.length ≠ 0 := by simpa using hv
  simp [calculateVariance, specVariance, hlen]

theorem calculateStability_eq (frameHistory : List PostureMetrics) :
    calculateStability frameHistory = some (specStability frameHistory) := by
  by_cases hlen : frameHistory.length < 2
  · simp [calculateStability, specStability, hlen]
  · have hne : frameHistory ≠ [] := by
      intro hnil
      simp [hnil] at hlen
    have hb := calculateVariance_of_ne_nil
      (frameHistory.map fun f => f.backCurvature) (by simpa using hne)
    have hs := calculateVariance_of_ne_nil
      (frameHistory.map fun f => f.shoulderAlignment) (by simpa using hne)
    have ho := calculateVariance_of_ne_nil
      (frameHistory.map fun f => f.overallStability) (by simpa using hne)
    simp [calculateStability, specStability, hlen, hb, hs, ho, jsMax_eq, jsMin_eq]

theorem specStability_bounds (frameHistory : List PostureMetrics) :
    0 ≤ specStability frameHistory ∧ specStability frameHistory ≤ 1 := by
  unfold specStability
  split
  · norm_num
  · exact ⟨le_max_left _ _, max_le (by norm_num) (min_le_left _ _)⟩

theorem analyzeSquatPosture_eq (l : List Landmark) (f : ℚ) (env : SimEnv)
    (frameHistory : List PostureMetrics) :
    analyzeSquatPosture l f env frameHistory =
      some (squatAnalysis f env frameHistory,
        pushMetrics frameHistory (calculateSquatMetrics env)) := by
  simp only [analyzeSquatPosture, squatAnalysis, calculateStability_eq]

theorem analyzeSittingPosture_eq (l : List Landmark) (f : ℚ) (env : SimEnv)
    (frameHistory : List PostureMetrics) :
    analyzeSittingPosture l f env frameHistory =
      some (sittingAnalysis f env frameHistory,
        pushMetrics frameHistory (calculateSittingMetrics env)) := by
  simp only [analyzeSittingPosture, sittingAnalysis, calculateStability_eq]

theorem squatAnalysis_metrics (f : ℚ) (env : SimEnv) (h : List PostureMetrics) :
    (squatAnalysis f env h).metrics = calculateSquatMetrics env := rfl

theorem sittingAnalysis_metrics (f : ℚ) (env : SimEnv) (h : List PostureMetrics) :
    (sittingAnalysis f env h).metrics = calculateSittingMetrics env := rfl

theorem calculateSquatScore_bounds (metrics : PostureMetrics)
    (issues : List PostureIssue) :
    0 ≤ calculateSquatScore metrics issues ∧ calculateSquatScore metrics issues ≤ 100 := by
  simp only [calculateSquatScore, jsMax_eq, jsMin_eq]
  exact ⟨le_max_left _ _, max_le (by norm_num) (min_le_left _ _)⟩

theorem calculateSittingScore_bounds (metrics : PostureMetrics)
    (issues : List PostureIssue) :
    0 ≤ calculateSittingScore metrics issues ∧ calculateSittingScore metrics issues ≤ 100 := by
  simp only [calculateSittingScore, jsMax_eq, jsMin_eq]
  exact ⟨le_max_left _ _, max_le (by norm_num) (min_le_left _ _)⟩

theorem isGoodPostureOf_eq_true_iff (issues : List PostureIssue) (score : ℚ) :
    isGoodPostureOf issues score = true ↔
      (∀ i ∈ issues, i.type ≠ IssueType.critical) ∧ 70 < score := by
  simp [isGoodPostureOf, List.length_eq_zero, List.filter_eq_nil_iff]

theorem pushMetrics_append {frameHistory : List PostureMetrics} (m : PostureMetrics)
    (hlen : frameHistory.length < stabilityWindow) :
    pushMetrics frameHistory m = frameHistory ++ [m] := by
  simp only [pushMetrics]
  rw [if_neg]
  simp only [List.length_append, List.length_singleton, stabilityWindow] at hlen ⊢
  omega

theorem pushMetrics_evict {frameHistory : List PostureMetrics} (m : PostureMetrics)
    (hlen : frameHistory.length = stabilityWindow) :
    pushMetrics frameHistory m = frameHistory.tail ++ [m] := by
  cases frameHistory with
  | nil => simp [stabilityWindow] at hlen
  | cons x xs =>
    simp only [pushMetrics]
    rw [if_pos]
    · simp
    · simp only [List.length_append, List.length_singleton, List.length_cons,
        stabilityWindow] at hlen ⊢
      omega

theorem pushMetrics_getLast (frameHistory : List PostureMetrics) (m : PostureMetrics) :
    (pushMetrics frameHistory m).getLast? = some m := by
  simp only [pushMetrics]
  split
  · rename_i hcond
    cases frameHistory with
    | nil => simp [stabilityWindow] at hcond
    | cons x xs => simp [List.getLast?_concat]
  · exact List.getLast?_concat _

theorem pushMetrics_length_le {frameHistory : List PostureMetrics} (m : PostureMetrics)
    (hle : frameHistory.length ≤ stabilityWindow) :
    (pushMetrics frameHistory m).length ≤ stabilityWindow := by
  simp only [pushMetrics]
  split
  · rename_i hcond
    simp only [List.length_tail, List.length_append, List.length_singleton]
    omega
  · rename_i hcond
    omega

theorem engineStep_length_le {frameHistory : List PostureMetrics} (c : EngineCall)
    (hle : frameHistory.length ≤ stabilityWindow) :
    (engineStep frameHistory c).length ≤ stabilityWindow := by
  cases hm : c.mode
  · simp only [engineStep, hm, analyzeSquatPosture_eq]
    exact pushMetrics_length_le _ hle
  · simp only [engineStep, hm, analyzeSittingPosture_eq]
    exact pushMetrics_length_le _ hle

theorem analyzeSquat_envZero :
    analyzeSquatPosture [] 0 envZero [] = some (squatAnalysis0, [squatMetrics0]) := by
  norm_num [analyzeSquatPosture, calculateSquatMetrics, envZero, pushMetrics, stabilityWindow,
    calculateStability, squatIssuesRecs, calculateSquatScore, isGoodPostureOf,
    calculateConfidence, dedupKeepFirst, jsMax, jsMin, jsAbs, squatAnalysis0, squatMetrics0]
  decide

theorem analyzeSitting_envZero :
    analyzeSittingPosture [] 0 envZero [] = some (sittingAnalysis0, [sittingMetrics0]) := by
  norm_num [analyzeSittingPosture, calculateSittingMetrics, envZero, pushMetrics,
    stabilityWindow, calculateStability, sittingIssuesRecs, calculateSittingScore,
    isGoodPostureOf, calculateConfidence, dedupKeepFirst, jsMax, jsMin, jsAbs,
    sittingAnalysis0, sittingMetrics0]
  decide

theorem foldl_engineStep_length_le (calls : List EngineCall) :
    ∀ {frameHistory : List PostureMetrics}, frameHistory.length ≤ stabilityWindow →
      (calls.foldl engineStep frameHistory).length ≤ stabilityWindow := by
  induction calls with
  | nil => intro h hle; simpa using hle
  | cons c cs ih =>
    intro h hle
    simpa using ih (engineStep_length_le c hle)

/-! ## Claim theorems -/

/-- C1: the overall score returned by `calculateSquatScore` and
`calculateSittingScore` — and hence the `overallScore` field of every
`PostureAnalysis` produced by `analyzeSquatPosture` and
`analyzeSittingPosture` — lies in `[0, 100]` for every metrics vector and
every issue list, even when the additive formula would leave that range. -/
theorem overallScore_within_bounds :
    (∀ (metrics : PostureMetrics) (issues : List PostureIssue),
        0 ≤ calculateSquatScore metrics issues ∧ calculateSquatScore metrics issues ≤ 100)
  ∧ (∀ (metrics : PostureMetrics) (issues : List PostureIssue),
        0 ≤ calculateSittingScore metrics issues ∧ calculateSittingScore metrics issues ≤ 100)
  ∧ (∀ (l : List Landmark) (f : ℚ) (env : SimEnv) (h : List PostureMetrics)
        (a : PostureAnalysis) (h2 : List PostureMetrics),
        analyzeSquatPosture l f env h = some (a, h2) →
          0 ≤ a.overallScore ∧ a.overallScore ≤ 100)
  ∧ (∀ (l : List Landmark) (f : ℚ) (env : SimEnv) (h : List PostureMetrics)
        (a : PostureAnalysis) (h2 : List PostureMetrics),
        analyzeSittingPosture l f env h = some (a, h2) →
          0 ≤ a.overallScore ∧ a.overallScore ≤ 100) := by
  refine ⟨calculateSquatScore_bounds, calculateSittingScore_bounds, ?_, ?_⟩
  · intro l f env h a h2 heq
    rw [analyzeSquatPosture_eq] at heq
    simp only [Option.some.injEq, Prod.mk.injEq] at heq
    obtain ⟨rfl, rfl⟩ := heq
    exact calculateSquatScore_bounds _ _
  · intro l f env h a h2 heq
    rw [analyzeSittingPosture_eq] at heq
    simp only [Option.some.injEq, Prod.mk.injEq] at heq
    obtain ⟨rfl, rfl⟩ := heq
    exact calculateSittingScore_bounds _ _

/-- C1 witness: the bound instantiated at concrete analyses. -/
theorem overallScore_within_bounds_witness :
    (0 ≤ squatAnalysis0.overallScore ∧ squatAnalysis0.overallScore ≤ 100)
  ∧ (0 ≤ sittingAnalysis0.overallScore ∧ sittingAnalysis0.overallScore ≤ 100) :=
  ⟨overallScore_within_bounds.2.2.1 [] 0 envZero [] squatAnalysis0 [squatMetrics0]
      analyzeSquat_envZero,
   overallScore_within_bounds.2.2.2 [] 0 envZero [] sittingAnalysis0 [sittingMetrics0]
      analyzeSitting_envZero⟩

/-- C2: in every analysis either engine operation produces, `isGoodPosture`
is true exactly when no issue has type `critical` and the overall score
exceeds 70; any critical issue forces `isGoodPosture = false` no matter how
high the score is. -/
theorem isGoodPosture_characterization :
    (∀ (l : List Landmark) (f : ℚ) (env : SimEnv) (h : List PostureMetrics)
        (a : PostureAnalysis) (h2 : List PostureMetrics),
        analyzeSquatPosture l f env h = some (a, h2) →
          (a.isGoodPosture = true ↔
            (∀ i ∈ a.issues, i.type ≠ IssueType.critical) ∧ 70 < a.overallScore))
  ∧ (∀ (l : List Landmark) (f : ℚ) (env : SimEnv) (h : List PostureMetrics)
        (a : PostureAnalysis) (h2 : List PostureMetrics),
        analyzeSittingPosture l f env h = some (a, h2) →
          (a.isGoodPosture = true ↔
            (∀ i ∈ a.issues, i.type ≠ IssueType.critical) ∧ 70 < a.overallScore)) := by
  constructor
  · intro l f env h a h2 heq
    rw [analyzeSquatPosture_eq] at heq
    simp only [Option.some.injEq, Prod.mk.injEq] at heq
    obtain ⟨rfl, rfl⟩ := heq
    exact isGoodPostureOf_eq_true_iff _ _
  · intro l f env h a h2 heq
    rw [analyzeSittingPosture_eq] at heq
    simp only [Option.some.injEq, Prod.mk.injEq] at heq
    obtain ⟨rfl, rfl⟩ := heq
    exact isGoodPostureOf_eq_true_iff _ _

/-- C2 witness: at `envZero` both analyses have no critical issue and a
score above 70, so the characterization yields `isGoodPosture = true`. -/
theorem isGoodPosture_characterization_witness :
    squatAnalysis0.isGoodPosture = true ∧ sittingAnalysis0.isGoodPosture = true :=
  ⟨(isGoodPosture_characterization.1 [] 0 envZero [] squatAnalysis0 [squatMetrics0]
      analyzeSquat_envZero).mpr ⟨by decide, by norm_num [squatAnalysis0]⟩,
   (isGoodPosture_characterization.2 [] 0 envZero [] sittingAnalysis0 [sittingMetrics0]
      analyzeSitting_envZero).mpr ⟨by decide, by norm_num [sittingAnalysis0]⟩⟩

/-- C3: the stability estimator returns exactly `0.5` when the history has
fewer than two samples, and otherwise `clamp(1 - avgVariance * 10, 0, 1)`
with `avgVariance` the mean of the variances of `backCurvature`,
`shoulderAlignment` and `overallStability` across the stored window —
`specStability` states that formula verbatim. -/
theorem calculateStability_matches_spec (frameHistory : List PostureMetrics) :
    calculateStability frameHistory = some (specStability frameHistory) :=
  calculateStability_eq frameHistory

/-- C4 counterexample: the claimed bound `[0.1, 1.0]` fails for a negative
`frameNumber` (the code does not clamp `frameNumber / 10` from below):
`calculateConfidence 0 (-100) = -3.5`. -/
theorem calculateConfidence_bound_fails :
    ¬(1/10 ≤ calculateConfidence 0 (-100) ∧ calculateConfidence 0 (-100) ≤ 1) := by
  norm_num [calculateConfidence, jsMin]

/-- C4 (amended): `calculateConfidence` always returns
`(min(1, frameNumber/10) * 0.4 + stability * 0.6) * 0.9 + 0.1`; the result
lies in `[0.1, 1.0]` whenever `frameNumber ≥ 0` and `stability ∈ [0, 1]`
(every value `calculateStability` can produce lies in `[0, 1]`). -/
theorem calculateConfidence_formula_and_bounds :
    (∀ stability frameNumber : ℚ,
        calculateConfidence stability frameNumber =
          (min 1 (frameNumber / 10) * (4/10) + stability * (6/10)) * (9/10) + 1/10)
  ∧ (∀ stability frameNumber : ℚ, 0 ≤ frameNumber → 0 ≤ stability → stability ≤ 1 →
        1/10 ≤ calculateConfidence stability frameNumber ∧
          calculateConfidence stability frameNumber ≤ 1)
  ∧ (∀ (frameHistory : List PostureMetrics) (s : ℚ),
        calculateStability frameHistory = some s → 0 ≤ s ∧ s ≤ 1) := by
  refine ⟨fun s f => by simp only [calculateConfidence, jsMin_eq], ?_, ?_⟩
  · intro s f hf hs0 hs1
    simp only [calculateConfidence, jsMin_eq]
    have h1 : min 1 (f / 10) ≤ 1 := min_le_left _ _
    have h0 : (0 : ℚ) ≤ min 1 (f / 10) := le_min (by norm_num) (by linarith)
    constructor <;> nlinarith
  · intro frameHistory s hsome
    rw [calculateStability_eq] at hsome
    obtain rfl := Option.some.inj hsome
    exact specStability_bounds _

/-- C4 witness: the amended bound at `stability = 1/2`, `frameNumber = 0`,
and the stability-range conjunct at the empty history. -/
theorem calculateConfidence_formula_and_bounds_witness :
    (1/10 ≤ calculateConfidence (1/2) 0 ∧ calculateConfidence (1/2) 0 ≤ 1)
  ∧ (0 ≤ (1/2 : ℚ) ∧ (1/2 : ℚ) ≤ 1) :=
  ⟨calculateConfidence_formula_and_bounds.2.1 (1/2) 0 le_rfl (by norm_num) (by norm_num),
   calculateConfidence_formula_and_bounds.2.2 [] (1/2) (by simp [calculateStability])⟩

/-- C5: for a fixed stability value, `calculateConfidence` is monotonically
non-decreasing in `frameNumber`. -/
theorem calculateConfidence_mono (stability : ℚ) {f1 f2 : ℚ} (hf : f1 ≤ f2) :
    calculateConfidence stability f1 ≤ calculateConfidence stability f2 := by
  simp only [calculateConfidence, jsMin_eq]
  have hmin : min 1 (f1 / 10) ≤ min 1 (f2 / 10) :=
    min_le_min le_rfl (by linarith)
  linarith

/-- C5 witness: monotonicity at `stability = 1/2`, frames `0 ≤ 20`. -/
theorem calculateConfidence_mono_witness :
    calculateConfidence (1/2) 0 ≤ calculateConfidence (1/2) 20 :=
  calculateConfidence_mono (1/2) (by norm_num)

/-- C6: the squat critical knee-valgus rule is a strict inequality —
`kneeTracking = 0.15` produces no critical severity-9 issue, while
`kneeTracking = 0.1500001` produces one. -/
theorem kneeTracking_boundary_strict :
    ((squatIssuesRecs kneeBoundaryMetrics 1 0).1.any fun i =>
        decide (i.type = IssueType.critical ∧ i.severity = 9)) = false
  ∧ ((squatIssuesRecs kneeAboveBoundaryMetrics 1 0).1.any fun i =>
        decide (i.type = IssueType.critical ∧ i.severity = 9)) = true := by
  refine ⟨?_, ?_⟩ <;>
    norm_num [squatIssuesRecs, kneeBoundaryMetrics, kneeAboveBoundaryMetrics]

/-- C7 counterexample: two calls with identical landmark input (and
identical frame number and engine state) but taken at different wall-clock
instants return different metrics — derivation is not a function of the
body-position observation. -/
theorem metrics_not_function_of_landmarks :
    Option.map (fun p => p.1.metrics) (analyzeSquatPosture [] 0 envZero []) ≠
      Option.map (fun p => p.1.metrics) (analyzeSquatPosture [] 0 envOne []) := by
  rw [analyzeSquatPosture_eq, analyzeSquatPosture_eq]
  simp only [Option.map_some']
  intro hcontra
  simp only [Option.some.injEq] at hcontra
  have hknee := congrArg PostureMetrics.kneeTracking hcontra
  norm_num [squatAnalysis, calculateSquatMetrics, envZero, envOne, jsMax, jsMin, jsAbs]
    at hknee

/-- C7 (amended): metrics derivation is a pure function of the simulated
signal sample (`SimEnv`: sine value, random draw, timestamp) alone — for a
fixed environment it is independent of the landmarks argument, the frame
number, and the engine's frame history; it is not a function of the
landmark observation, on which it does not depend at all. -/
theorem metrics_pure_in_env :
    ∀ (l1 l2 : List Landmark) (f1 f2 : ℚ) (env : SimEnv)
      (h1 h2 : List PostureMetrics),
      Option.map (fun p => p.1.metrics) (analyzeSquatPosture l1 f1 env h1) =
        Option.map (fun p => p.1.metrics) (analyzeSquatPosture l2 f2 env h2)
    ∧ Option.map (fun p => p.1.metrics) (analyzeSittingPosture l1 f1 env h1) =
        Option.map (fun p => p.1.metrics) (analyzeSittingPosture l2 f2 env h2) := by
  intro l1 l2 f1 f2 env h1 h2
  constructor
  · rw [analyzeSquatPosture_eq, analyzeSquatPosture_eq]
    simp only [Option.map_some', squatAnalysis_metrics]
  · rw [analyzeSittingPosture_eq, analyzeSittingPosture_eq]
    simp only [Option.map_some', sittingAnalysis_metrics]

/-- C8 counterexample: called with an empty landmarks array (every required
landmark absent), `analyzeSquatPosture` surfaces no error and returns a
normal `PostureAnalysis` built from simulated metrics. -/
theorem missing_landmarks_no_error :
    analyzeSquatPosture [] 0 envZero [] = some (squatAnalysis0, [squatMetrics0]) :=
  analyzeSquat_envZero

/-- C8 (amended): the engine performs no landmark validation at all — both
operations ignore the landmarks argument (the result with any landmark list
equals the result with the empty one) and always return a normal analysis
(`isSome`), silently proceeding instead of failing fast. -/
theorem analyze_ignores_landmarks :
    ∀ (l : List Landmark) (f : ℚ) (env : SimEnv) (h : List PostureMetrics),
      analyzeSquatPosture l f env h = analyzeSquatPosture [] f env h
    ∧ (analyzeSquatPosture l f env h).isSome = true
    ∧ analyzeSittingPosture l f env h = analyzeSittingPosture [] f env h
    ∧ (analyzeSittingPosture l f env h).isSome = true := by
  intro l f env h
  refine ⟨rfl, ?_, rfl, ?_⟩
  · rw [analyzeSquatPosture_eq]
    rfl
  · rw [analyzeSittingPosture_eq]
    rfl

/-- C9: the frame history is a bounded FIFO with window 5 — after any
sequence of calls on one engine instance its length is at most 5; each call
replaces the history by `pushMetrics` of the newly derived metrics vector
(which always becomes the last entry); below the window the push appends,
and at a full window the oldest (head) entry is the one evicted. -/
theorem frameHistory_bounded_fifo :
    (∀ calls : List EngineCall, (runEngine calls).length ≤ stabilityWindow)
  ∧ (∀ (l : List Landmark) (f : ℚ) (env : SimEnv) (h : List PostureMetrics)
        (a : PostureAnalysis) (h2 : List PostureMetrics),
        analyzeSquatPosture l f env h = some (a, h2) → h2 = pushMetrics h a.metrics)
  ∧ (∀ (l : List Landmark) (f : ℚ) (env : SimEnv) (h : List PostureMetrics)
        (a : PostureAnalysis) (h2 : List PostureMetrics),
        analyzeSittingPosture l f env h = some (a, h2) → h2 = pushMetrics h a.metrics)
  ∧ (∀ (h : List PostureMetrics) (m : PostureMetrics),
        (pushMetrics h m).getLast? = some m)
  ∧ (∀ (h : List PostureMetrics) (m : PostureMetrics),
        h.length < stabilityWindow → pushMetrics h m = h ++ [m])
  ∧ (∀ (h : List PostureMetrics) (m : PostureMetrics),
        h.length = stabilityWindow → pushMetrics h m = h.tail ++ [m]) := by
  refine ⟨fun calls => foldl_engineStep_length_le calls (by simp [stabilityWindow]),
    ?_, ?_, pushMetrics_getLast, fun h m hlt => pushMetrics_append m hlt,
    fun h m heq => pushMetrics_evict m heq⟩
  · intro l f env h a h2 heq
    rw [analyzeSquatPosture_eq] at heq
    simp only [Option.some.injEq, Prod.mk.injEq] at heq
    obtain ⟨rfl, rfl⟩ := heq
    rfl
  · intro l f env h a h2 heq
    rw [analyzeSittingPosture_eq] at heq
    simp only [Option.some.injEq, Prod.mk.injEq] at heq
    obtain ⟨rfl, rfl⟩ := heq
    rfl

/-- C9 witness: the FIFO facts at concrete inputs — a fresh engine, one
concrete squat and sitting call, an append below the window, and an
eviction at a full window. -/
theorem frameHistory_bounded_fifo_witness :
    (runEngine []).length ≤ stabilityWindow
  ∧ [squatMetrics0] = pushMetrics [] squatAnalysis0.metrics
  ∧ [sittingMetrics0] = pushMetrics [] sittingAnalysis0.metrics
  ∧ pushMetrics [] squatMetrics0 = [] ++ [squatMetrics0]
  ∧ pushMetrics fullHistory sittingMetrics0 = fullHistory.tail ++ [sittingMetrics0] :=
  ⟨frameHistory_bounded_fifo.1 [],
   frameHistory_bounded_fifo.2.1 [] 0 envZero [] squatAnalysis0 [squatMetrics0]
      analyzeSquat_envZero,
   frameHistory_bounded_fifo.2.2.1 [] 0 envZero [] sittingAnalysis0 [sittingMetrics0]
      analyzeSitting_envZero,
   frameHistory_bounded_fifo.2.2.2.2.1 [] squatMetrics0 (by decide),
   frameHistory_bounded_fifo.2.2.2.2.2 fullHistory sittingMetrics0 (by decide)⟩

/-- C10: both public operations are total — for every landmarks array
(including the empty one), every rational frame number (negative, zero, or
non-integer), every environment and every history state they return a
`PostureAnalysis`, and the stability computation on the pushed history is
always defined (the variance division never sees an empty list). -/
theorem analyze_never_fails :
    ∀ (l : List Landmark) (f : ℚ) (env : SimEnv) (h : List PostureMetrics),
      (∃ a h2, analyzeSquatPosture l f env h = some (a, h2))
    ∧ (∃ a h2, analyzeSittingPosture l f env h = some (a, h2))
    ∧ ∀ m : PostureMetrics, (calculateStability (pushMetrics h m)).isSome = true := by
  intro l f env h
  refine ⟨⟨_, _, analyzeSquatPosture_eq l f env h⟩,
    ⟨_, _, analyzeSittingPosture_eq l f env h⟩, ?_⟩
  intro m
  rw [calculateStability_eq]
  rfl

end PostureEngine
